import Mathlib

/-!
Verification development for the SmartMoney signal engine
(`src/analysis/smart_money.py`).

The Python source is shallowly embedded over exact rationals (`ℚ`):
prices, volumes and strengths are `ℚ`; timestamps are `ℚ` seconds since
an arbitrary epoch (so `total_seconds()` of a difference is plain
subtraction).  A pandas `DataFrame` of candles is a `List Candle` in
ascending-index order, and `df.iloc[a:b]` is `sliceL df a b`.  The
Python per-row `try/except ... continue` bodies never raise in this
pure embedding, so each loop body becomes a total `Option`-valued step;
the detector-level exception behaviour of `SmartMoneyAnalyzer.analyze`
is modelled separately by `analyzeRun`, which takes each detector run
as an `Except` value.  Python's stable `list.sort` is modelled by a
stable insertion sort (any two stable sorts of the same key agree).

The `Rat` arithmetic operations are `@[irreducible]` in Batteries only
to keep `simp`/`rw` from unfolding them accidentally; concrete
evaluation here goes through `decide`, so they are restored to their
ordinary reducibility for this file.
-/

set_option allowUnsafeReducibility true

attribute [local semireducible] Rat.add Rat.mul Rat.sub Rat.inv Rat.ofScientific

/-- A single OHLC candle (one row of the input DataFrame).  `volume` is
optional: `none` models a row without a usable volume entry, matching the
source's `'volume' in candle` check. -/
structure Candle where
  datetime : ℚ
  open_ : ℚ
  high : ℚ
  low : ℚ
  close : ℚ
  volume : Option ℚ
deriving DecidableEq, Repr

/-- The `SmartMoneySignal` dataclass.  `description`, `timeframe` and
`additional_data` are display-only in the source (never read by any
logic the claims touch) and are omitted. -/
structure Signal where
  signal_type : String
  direction : String
  price : ℚ
  timestamp : ℚ
  strength : ℚ
deriving DecidableEq, Repr

/-- A swing point as produced by
`MarketStructureAnalyzer._identify_swing_points` (a dict with keys
`type`, `price`, `timestamp`, `index`). -/
structure SwingPoint where
  type : String
  price : ℚ
  timestamp : ℚ
  index : ℕ
deriving DecidableEq, Repr

def dCandle : Candle := ⟨0, 0, 0, 0, 0, none⟩

def dSignal : Signal := ⟨"", "", 0, 0, 0⟩

def dSwing : SwingPoint := ⟨"", 0, 0, 0⟩

/-- Embeds `df.iloc[i]` for an in-range index (the default is never reached at
the call sites, which all guard the range). -/
def dfGet (df : List Candle) (i : ℕ) : Candle := df.getD i dCandle

/-- Embeds `l[lo:hi]` (Python slice with non-negative bounds; `ℕ` subtraction
clamps exactly like Python's `max(0, ...)` did at every call site). -/
def sliceL {α : Type} (l : List α) (lo hi : ℕ) : List α :=
  (l.drop lo).take (hi - lo)

/-- Embeds `series.max()` over a non-empty list (the `[]` default is never
reached at guarded call sites). -/
def listMax (l : List ℚ) : ℚ :=
  match l with
  | [] => 0
  | x :: t => t.foldl max x

/-- Embeds `series.min()` over a non-empty list. -/
def listMin (l : List ℚ) : ℚ :=
  match l with
  | [] => 0
  | x :: t => t.foldl min x

/-- Embeds `context['volume'].mean()`: pandas skips missing entries; an
all-missing column gives `NaN`, which compares false against `0` exactly
as the `0` returned here does. -/
def volMean (context : List Candle) : ℚ :=
  let vs := context.filterMap Candle.volume
  if vs.length = 0 then 0 else vs.sum / (vs.length : ℚ)

def charsStartWith : List Char → List Char → Bool
  | [], _ => true
  | _ :: _, [] => false
  | n :: ns, h :: hs => n == h && charsStartWith ns hs

def charsContain (needle : List Char) : List Char → Bool
  | [] => charsStartWith needle []
  | h :: hs => charsStartWith needle (h :: hs) || charsContain needle hs

/-- Embeds `0.01 if 'JPY' in pair else 0.0001`. -/
def pipValue (pair : String) : ℚ :=
  if charsContain "JPY".toList pair.toList then 1 / 100 else 1 / 10000

/-- The source's final `min(100, max(0, strength))` clamp. -/
def clamp100 (x : ℚ) : ℚ := min 100 (max 0 x)

/-- Embeds `FairValueGapAnalyzer.__init__` parameters. -/
structure FVGConfig where
  min_gap_pips : ℚ
  max_age_hours : ℚ
deriving DecidableEq

def fvgDefault : FVGConfig := ⟨3, 24⟩

/-- Embeds `FairValueGapAnalyzer._is_bullish_impulse`. -/
def isBullishImpulse (c : Candle) : Bool :=
  decide (c.open_ < c.close) &&
    (if 0 < c.high - c.low
     then decide ((c.high - c.low) * 0.6 < |c.close - c.open_|)
     else false)

/-- Embeds `FairValueGapAnalyzer._is_bearish_impulse`. -/
def isBearishImpulse (c : Candle) : Bool :=
  decide (c.close < c.open_) &&
    (if 0 < c.high - c.low
     then decide ((c.high - c.low) * 0.6 < |c.open_ - c.close|)
     else false)

/-- Least-squares slope of `np.polyfit(range(n), ys, 1)` (exact rational
linear regression; `numpy` computes the same quantity in floats). -/
def polyfitSlope (ys : List ℚ) : ℚ :=
  let n : ℚ := ys.length
  let xs : List ℚ := (List.range ys.length).map (fun i => (i : ℚ))
  let sx := xs.sum
  let sy := ys.sum
  let sxy := ((xs.zip ys).map (fun p => p.1 * p.2)).sum
  let sxx := (xs.map (fun x => x * x)).sum
  (n * sxy - sx * sy) / (n * sxx - sx * sx)

/-- Sample variance with `ddof=1` (the square of pandas' `.std()`);
only called on lists of length ≥ 2. -/
def sampleVar (ys : List ℚ) : ℚ :=
  let n : ℚ := ys.length
  let m := ys.sum / n
  (ys.map (fun y => (y - m) * (y - m))).sum / (n - 1)

/-- Rational stand-in for the floating-point square root inside
`closes.std()`.  It is positive exactly when its argument is, which is
all any branch of the source tests; every downstream use of the value is
clamped, so its approximation error cannot affect any stated property. -/
def ratSqrt (q : ℚ) : ℚ :=
  if q ≤ 0 then 0 else (Nat.sqrt (q.num.toNat * q.den) : ℚ) / (q.den : ℚ)

/-- Embeds `FairValueGapAnalyzer._calculate_trend_strength`. -/
def trendStrength (closes : List ℚ) : ℚ :=
  if closes.length < 2 then 1 / 2
  else
    let slope := polyfitSlope closes
    let std := ratSqrt (sampleVar closes)
    if 0 < std then min 1 (|slope| / std / 2) else 1 / 2

/-- The relative-volume sub-score (factor 3 of
`_calculate_fvg_strength`, lines 189–197, duplicated verbatim at lines
373–381 of `_calculate_ob_strength`).  Note the `else` belongs to the
outer `if`: a present volume with enough context but non-positive mean
volume adds nothing (0), not the 15 fallback. -/
def relVolumeFactor (c : Candle) (context : List Candle) : ℚ :=
  if c.volume.isSome && decide (5 < context.length) then
    if 0 < volMean context then min 25 (c.volume.getD 0 / volMean context * 10)
    else 0
  else 15

/-- Factor 2 of `_calculate_fvg_strength` (impulse body quality). -/
def fvgBodyFactor (impulse : Candle) : ℚ :=
  if 0 < impulse.high - impulse.low
  then |impulse.close - impulse.open_| / (impulse.high - impulse.low) * 25
  else 0

/-- Embeds `l.tail(10)` (the last ten entries). -/
def tail10 (l : List ℚ) : List ℚ := l.drop (l.length - 10)

/-- Factor 4 of `_calculate_fvg_strength` (trend context). -/
def fvgTrendFactor (context : List Candle) : ℚ :=
  if 10 ≤ context.length
  then trendStrength (tail10 (context.map Candle.close)) * 25
  else 12.5

/-- Embeds `FairValueGapAnalyzer._calculate_fvg_strength`. -/
def fvgStrength (gap_pips : ℚ) (impulse : Candle) (context : List Candle) : ℚ :=
  clamp100 (min 25 (gap_pips * 2) + fvgBodyFactor impulse
    + relVolumeFactor impulse context + fvgTrendFactor context)

/-- One iteration of the `identify_fvgs` scan (loop body at index `i`). -/
def fvgStep (cfg : FVGConfig) (df : List Candle) (pv : ℚ) (i : ℕ) : Option Signal :=
  let c1 := dfGet df (i - 2)
  let c2 := dfGet df (i - 1)
  let c3 := dfGet df i
  if c3.high < c1.low then
    let gap_pips := (c1.low - c3.high) / pv
    if cfg.min_gap_pips ≤ gap_pips then
      if isBullishImpulse c2 then
        some ⟨"FVG_Bullish", "bullish", (c1.low + c3.high) / 2, c3.datetime,
          fvgStrength gap_pips c2 (sliceL df (i - 10) (i + 1))⟩
      else none
    else none
  else if c1.high < c3.low then
    let gap_pips := (c3.low - c1.high) / pv
    if cfg.min_gap_pips ≤ gap_pips then
      if isBearishImpulse c2 then
        some ⟨"FVG_Bearish", "bearish", (c3.low + c1.high) / 2, c3.datetime,
          fvgStrength gap_pips c2 (sliceL df (i - 10) (i + 1))⟩
      else none
    else none
  else none

/-- The signal list built by the scan loop of `identify_fvgs`, before
the age post-filter. -/
def fvg_raw (cfg : FVGConfig) (df : List Candle) (pv : ℚ) : List Signal :=
  (List.range' 2 (df.length - 2)).filterMap (fvgStep cfg df pv)

/-- Embeds `FairValueGapAnalyzer.identify_fvgs`. -/
def identify_fvgs (cfg : FVGConfig) (df : List Candle) (pair : String) : List Signal :=
  if df.length < 3 then []
  else
    let signals := fvg_raw cfg df (pipValue pair)
    let current := (dfGet df (df.length - 1)).datetime
    signals.filter (fun s => decide ((current - s.timestamp) / 3600 ≤ cfg.max_age_hours))

/-- A three-candle series with a 50-pip bullish gap (candle 0's low
1.2000 sits far above candle 2's high 1.1000) and a strongly bodied
green impulse candle in the middle; used to instantiate several
theorems below. -/
def wDf3 : List Candle :=
  [⟨0, 1.2005, 1.2010, 1.2000, 1.2008, none⟩,
   ⟨3600, 1.1500, 1.1599, 1.1500, 1.1598, none⟩,
   ⟨7200, 1.0990, 1.1000, 1.0980, 1.0995, none⟩]

/-- The single signal `identify_fvgs` emits on `wDf3`. -/
def wFvgSignal : Signal := ⟨"FVG_Bullish", "bullish", 1.15, 7200, 15295 / 198⟩

/-- Embeds `OrderBlockAnalyzer.__init__` parameters. -/
structure OBConfig where
  min_size_pips : ℚ
  confirmation_candles : ℕ
deriving DecidableEq

def obDefault : OBConfig := ⟨5, 2⟩

/-- Embeds `future_candles['high'].max()` over the mapped highs. -/
def maxHigh (l : List Candle) : ℚ := listMax (l.map Candle.high)

/-- Embeds `future_candles['low'].min()` over the mapped lows. -/
def minLow (l : List Candle) : ℚ := listMin (l.map Candle.low)

/-- Embeds `OrderBlockAnalyzer._is_potential_bullish_ob`. -/
def isPotentialBullishOB (cfg : OBConfig) (c : Candle) (future : List Candle)
    (pv : ℚ) : Bool :=
  if future.length = 0 then false
  else decide (c.close < c.open_) &&
    decide (cfg.min_size_pips ≤ (maxHigh future - c.high) / pv)

/-- Embeds `OrderBlockAnalyzer._is_potential_bearish_ob`. -/
def isPotentialBearishOB (cfg : OBConfig) (c : Candle) (future : List Candle)
    (pv : ℚ) : Bool :=
  if future.length = 0 then false
  else decide (c.open_ < c.close) &&
    decide (cfg.min_size_pips ≤ (c.low - minLow future) / pv)

/-- Embeds `OrderBlockAnalyzer._calculate_confirmation_move`. -/
def confirmationMove (future : List Candle) (direction : String) : ℚ :=
  match future with
  | [] => 0
  | f :: _ =>
    if direction == "bullish" then maxHigh future - f.close
    else f.close - minLow future

/-- Embeds `OrderBlockAnalyzer._calculate_ob_strength`. -/
def obStrength (ob : Candle) (future context : List Candle)
    (direction : String) : ℚ :=
  let cm := confirmationMove future direction
  let f1 := if 0 < cm then min 30 (cm * 10000) else 0
  let f2 :=
    if 0 < future.length then min 25 (cm / (future.length : ℚ) * 50000) else 0
  let f3 := relVolumeFactor ob context
  let f4 :=
    if 0 < ob.high - ob.low
    then |ob.close - ob.open_| / (ob.high - ob.low) * 20
    else 10
  clamp100 (f1 + f2 + f3 + f4)

/-- One iteration of the `identify_order_blocks` scan (loop body at
index `i`). -/
def obStep (cfg : OBConfig) (df : List Candle) (pv : ℚ) (i : ℕ) : Option Signal :=
  let c := dfGet df i
  let future := sliceL df (i + 1) (i + 1 + cfg.confirmation_candles)
  let context := sliceL df (i - 10) (i + 10)
  if isPotentialBullishOB cfg c future pv then
    some ⟨"OB_Bullish", "bullish", c.low, c.datetime,
      obStrength c future context "bullish"⟩
  else if isPotentialBearishOB cfg c future pv then
    some ⟨"OB_Bearish", "bearish", c.high, c.datetime,
      obStrength c future context "bearish"⟩
  else none

/-- Embeds `OrderBlockAnalyzer.identify_order_blocks`; the scan runs over
`range(window, len(df) - confirmation_candles)` with `window = 5`. -/
def identify_order_blocks (cfg : OBConfig) (df : List Candle) (pair : String) :
    List Signal :=
  if df.length < 10 then []
  else
    (List.range' 5 (df.length - cfg.confirmation_candles - 5)).filterMap
      (obStep cfg df (pipValue pair))

/-- Embeds `MarketStructureAnalyzer.__init__` parameters. -/
structure StructConfig where
  lookback_period : ℕ
  min_break_pips : ℚ
deriving DecidableEq

def structDefault : StructConfig := ⟨20, 2⟩

/-- One iteration of `_identify_swing_points` (loop body at index `i`;
the high check comes first, so a candle qualifying as both is emitted
as a high only). -/
def swingStep (df : List Candle) (w i : ℕ) : Option SwingPoint :=
  let c := dfGet df i
  let hw := (sliceL df (i - w) (i + w + 1)).map Candle.high
  let lw := (sliceL df (i - w) (i + w + 1)).map Candle.low
  if c.high == listMax hw then some ⟨"high", c.high, c.datetime, i⟩
  else if c.low == listMin lw then some ⟨"low", c.low, c.datetime, i⟩
  else none

/-- Embeds `MarketStructureAnalyzer._identify_swing_points` (window default 5);
the scan runs over `range(window, len(df) - window)`. -/
def identifySwingPoints (df : List Candle) (w : ℕ) : List SwingPoint :=
  (List.range' w (df.length - w - w)).filterMap (swingStep df w)

def swGet (sw : List SwingPoint) (i : ℕ) : SwingPoint := sw.getD i dSwing

/-- Embeds `all(lows[i] <= lows[i+1] for i in range(len(lows)-1))`. -/
def nondecreasing : List ℚ → Bool
  | [] => true
  | [_] => true
  | a :: b :: t => decide (a ≤ b) && nondecreasing (b :: t)

/-- Embeds `MarketStructureAnalyzer._calculate_structure_strength`. -/
def structureStrength (ctx : List SwingPoint) (structure_type : String) : ℚ :=
  if ctx.length < 2 then 50
  else
    let f1 :=
      if structure_type == "bullish_mss" then
        let lows := (ctx.filter (fun s => s.type == "low")).map SwingPoint.price
        if 2 ≤ lows.length then (if nondecreasing lows then 40 else 20) else 0
      else if structure_type == "bearish_mss" then
        let highs := (ctx.filter (fun s => s.type == "high")).map SwingPoint.price
        if 2 ≤ highs.length then (if nondecreasing highs then 40 else 20) else 0
      else 0
    let f2 :=
      if 2 ≤ ctx.length then
        let latest := swGet ctx (ctx.length - 1)
        let previous := swGet ctx (ctx.length - 2)
        let price_diff := |latest.price - previous.price|
        let avg_price := (latest.price + previous.price) / 2
        if 0 < avg_price then min 30 (price_diff / avg_price * 100 * 1000) else 0
      else 0
    let f3 := if 3 ≤ ctx.length then 30 else 0
    clamp100 (f1 + f2 + f3)

/-- The MSS part of one iteration of the `identify_structure_shifts`
loop (the `elif` chain at lines 426–482; `previous_swing` is assigned in
the source but never read by these conditions). -/
def mssStep (mb pv : ℚ) (sw : List SwingPoint) (i : ℕ) : Option Signal :=
  let cur := swGet sw i
  let prev2 := swGet sw (i - 2)
  if cur.type == "high" && prev2.type == "high" && decide (prev2.price < cur.price)
  then
    let break_size := (cur.price - prev2.price) / pv
    if mb ≤ break_size then
      some ⟨"MSS_Bullish", "bullish", cur.price, cur.timestamp,
        structureStrength (sliceL sw (i - 3) (i + 1)) "bullish_mss"⟩
    else none
  else if cur.type == "low" && prev2.type == "low" && decide (cur.price < prev2.price)
  then
    let break_size := (prev2.price - cur.price) / pv
    if mb ≤ break_size then
      some ⟨"MSS_Bearish", "bearish", cur.price, cur.timestamp,
        structureStrength (sliceL sw (i - 3) (i + 1)) "bearish_mss"⟩
    else none
  else none

/-- Embeds `MarketStructureAnalyzer._identify_change_of_character`.  A failed
bullish pattern falls through to the bearish check, exactly as the
source's early-return structure does. -/
def chochOf (mb pv : ℚ) (recent : List SwingPoint) : Option Signal :=
  if recent.length < 4 then none
  else
    let lows := recent.filter (fun s => s.type == "low")
    let highs := recent.filter (fun s => s.type == "high")
    let bull : Option Signal :=
      if 2 ≤ lows.length ∧ 1 ≤ highs.length then
        let lastLow := swGet lows (lows.length - 1)
        let prevLow := swGet lows (lows.length - 2)
        let lastHigh := swGet highs (highs.length - 1)
        if lastLow.price < prevLow.price ∧ lastHigh.index < lastLow.index then
          let break_size := (lastHigh.price - prevLow.price) / pv
          if mb ≤ break_size then
            some ⟨"ChoCh_Bullish", "bullish", lastHigh.price, lastLow.timestamp, 70⟩
          else none
        else none
      else none
    match bull with
    | some s => some s
    | none =>
      if 2 ≤ highs.length ∧ 1 ≤ lows.length then
        let lastHigh := swGet highs (highs.length - 1)
        let prevHigh := swGet highs (highs.length - 2)
        let lastLow := swGet lows (lows.length - 1)
        if prevHigh.price < lastHigh.price ∧ lastLow.index < lastHigh.index then
          let break_size := (prevHigh.price - lastLow.price) / pv
          if mb ≤ break_size then
            some ⟨"ChoCh_Bearish", "bearish", lastLow.price, lastHigh.timestamp, 70⟩
          else none
        else none
      else none

/-- One full iteration of the `identify_structure_shifts` loop: the MSS
check, then the ChoCh check on `swing_points[max(0, i-4):i+1]`. -/
def structStep (mb pv : ℚ) (sw : List SwingPoint) (i : ℕ) : List Signal :=
  (mssStep mb pv sw i).toList ++ (chochOf mb pv (sliceL sw (i - 4) (i + 1))).toList

/-- The `identify_structure_shifts` loop over an arbitrary swing-point
sequence (`for i in range(2, len(swing_points))`). -/
def structureShiftsFromSwings (mb pv : ℚ) (sw : List SwingPoint) : List Signal :=
  (List.range' 2 (sw.length - 2)).flatMap (structStep mb pv sw)

/-- Embeds `MarketStructureAnalyzer.identify_structure_shifts`. -/
def identify_structure_shifts (cfg : StructConfig) (df : List Candle)
    (pair : String) : List Signal :=
  if df.length < cfg.lookback_period * 2 then []
  else
    let sw := identifySwingPoints df 5
    if sw.length < 4 then []
    else structureShiftsFromSwings cfg.min_break_pips (pipValue pair) sw

/-- Embeds `s.sort(key=lambda x: x['timestamp'])` on a swing-point group:
Python's sort is stable, and a stable sort is uniquely determined by its
key, so a stable insertion sort is extensionally the same function. -/
def sortSwingsByTs (l : List SwingPoint) : List SwingPoint :=
  l.insertionSort (fun a b => a.timestamp ≤ b.timestamp)

/-- The greedy grouping pass of `_find_equal_levels`, with the recursion
fuelled by the list length (each anchor consumes itself and everything
it groups, so the fuel never runs out on the real calls). -/
def equalLevelGroups (tol : ℚ) : ℕ → List SwingPoint → List (List SwingPoint)
  | 0, _ => []
  | _, [] => []
  | fuel + 1, p :: rest =>
    let near := rest.filter (fun q => decide (|p.price - q.price| ≤ p.price * tol))
    let far := rest.filter (fun q => !decide (|p.price - q.price| ≤ p.price * tol))
    let group := p :: near
    if 2 ≤ group.length
    then sortSwingsByTs group :: equalLevelGroups tol fuel far
    else equalLevelGroups tol fuel far

/-- Embeds `LiquidityAnalyzer._find_equal_levels` (the `level_type` argument is
accepted and ignored, as in the source). -/
def find_equal_levels (tol : ℚ) (swing_points : List SwingPoint)
    (_level_type : String) : List (List SwingPoint) :=
  if swing_points.length < 2 then []
  else equalLevelGroups tol swing_points.length swing_points

/-- The signal built from one equal-highs group. -/
def mkEqualHighsSignal (g : List SwingPoint) : Signal :=
  ⟨"Liquidity_EqualHighs", "bearish", (g.headD dSwing).price,
    (g.getLastD dSwing).timestamp, min 100 ((g.length : ℚ) * 25)⟩

/-- The signal built from one equal-lows group. -/
def mkEqualLowsSignal (g : List SwingPoint) : Signal :=
  ⟨"Liquidity_EqualLows", "bullish", (g.headD dSwing).price,
    (g.getLastD dSwing).timestamp, min 100 ((g.length : ℚ) * 25)⟩

/-- Embeds `LiquidityAnalyzer.identify_liquidity_zones` (the `tol` parameter is
`equal_level_tolerance`, default `0.0002`). -/
def identify_liquidity_zones (tol : ℚ) (df : List Candle) (pair : String) :
    List Signal :=
  if df.length < 20 then []
  else
    let sw := identifySwingPoints df 5
    let highs := sw.filter (fun s => s.type == "high")
    let lows := sw.filter (fun s => s.type == "low")
    ((find_equal_levels tol highs "high").filterMap
      (fun g => if 2 ≤ g.length then some (mkEqualHighsSignal g) else none)) ++
    ((find_equal_levels tol lows "low").filterMap
      (fun g => if 2 ≤ g.length then some (mkEqualLowsSignal g) else none))

def liqDefaultTol : ℚ := 0.0002

/-- The dict returned by `SmartMoneyAnalyzer.analyze`. -/
structure AnalyzeResults where
  fair_value_gaps : List Signal
  order_blocks : List Signal
  market_structure : List Signal
  liquidity_zones : List Signal
  all_signals : List Signal
deriving DecidableEq, Repr

def emptyResults : AnalyzeResults := ⟨[], [], [], [], []⟩

/-- Embeds `all_signals.sort(key=lambda x: x.timestamp, reverse=True)`: stable
descending sort by timestamp. -/
def sortSignalsTsDesc (l : List Signal) : List Signal :=
  l.insertionSort (fun a b => b.timestamp ≤ a.timestamp)

/-- The control flow of `SmartMoneyAnalyzer.analyze`: all four detector
calls sit inside one `try` block, so the first raising detector ends the
block (the categories already assigned are kept, everything after stays
at its initial `[]`), and the exception itself is caught and logged.
Each argument is the outcome of one detector run. -/
def analyzeRun (rf ro rm rl : Except String (List Signal)) : AnalyzeResults :=
  match rf with
  | .error _ => emptyResults
  | .ok f =>
    match ro with
    | .error _ => ⟨f, [], [], [], []⟩
    | .ok o =>
      match rm with
      | .error _ => ⟨f, o, [], [], []⟩
      | .ok m =>
        match rl with
        | .error _ => ⟨f, o, m, [], []⟩
        | .ok l => ⟨f, o, m, l, sortSignalsTsDesc (f ++ o ++ m ++ l)⟩

/-- Embeds `SmartMoneyAnalyzer.analyze` with the default-constructed detectors;
in this pure embedding no detector can raise, so every run is `.ok`. -/
def analyze (df : List Candle) (pair : String) : AnalyzeResults :=
  analyzeRun
    (.ok (identify_fvgs fvgDefault df pair))
    (.ok (identify_order_blocks obDefault df pair))
    (.ok (identify_structure_shifts structDefault df pair))
    (.ok (identify_liquidity_zones liqDefaultTol df pair))

/-- The result dict of `get_market_bias` (`reasoning` is a display-only
formatted string and is omitted). -/
structure BiasResult where
  bias : String
  confidence : ℚ
deriving DecidableEq, Repr

/-- Python's `round` to an integer: half-to-even banker's rounding. -/
def pyRoundHalfEven (x : ℚ) : ℤ :=
  let f := ⌊x⌋
  if x - f < 1 / 2 then f
  else if 1 / 2 < x - f then f + 1
  else if f % 2 = 0 then f else f + 1

/-- Python's `round(x, 1)`. -/
def pyRound1 (x : ℚ) : ℚ := (pyRoundHalfEven (x * 10) : ℚ) / 10

/-- One iteration of the score-accumulation loop of `get_market_bias`. -/
def biasStep (acc : ℚ × ℚ) (s : Signal) : ℚ × ℚ :=
  if s.direction == "bullish" then (acc.1 + s.strength / 100, acc.2)
  else if s.direction == "bearish" then (acc.1, acc.2 + s.strength / 100)
  else acc

/-- The accumulation loop of `get_market_bias` (bullish score, bearish
score). -/
def scoreFold (signals : List Signal) : ℚ × ℚ :=
  signals.foldl biasStep (0, 0)

/-- The claim-level reading of the bullish total: each bullish signal
contributes `strength / 100`. -/
def bullishWeight (signals : List Signal) : ℚ :=
  ((signals.filter (fun s => s.direction == "bullish")).map
    (fun s => s.strength / 100)).sum

/-- The claim-level reading of the bearish total. -/
def bearishWeight (signals : List Signal) : ℚ :=
  ((signals.filter (fun s => s.direction == "bearish")).map
    (fun s => s.strength / 100)).sum

/-- Embeds `SmartMoneyAnalyzer.get_market_bias`. -/
def get_market_bias (signals : List Signal) : BiasResult :=
  if signals.isEmpty then ⟨"NEUTRAL", 0⟩
  else
    let p := scoreFold signals
    let total := p.1 + p.2
    if total = 0 then ⟨"NEUTRAL", 0⟩
    else
      let bullish_percentage := p.1 / total * 100
      let bearish_percentage := p.2 / total * 100
      if 60 < bullish_percentage then ⟨"BULLISH", pyRound1 bullish_percentage⟩
      else if 60 < bearish_percentage then ⟨"BEARISH", pyRound1 bearish_percentage⟩
      else ⟨"NEUTRAL", pyRound1 50⟩

/-- Embeds `SmartMoneyAnalyzer.filter_signals_by_strength`. -/
def filter_signals_by_strength (signals : List Signal) (min_strength : ℚ) :
    List Signal :=
  signals.filter (fun s => decide (min_strength ≤ s.strength))

/-- One entry of the list returned by `get_confluence_signals`
(`signal_types`, a display-only list built from a Python `set` with
unspecified iteration order, is omitted). -/
structure ConfluenceGroup where
  signals : List Signal
  avg_price : ℚ
  combined_strength : ℚ
  dominant_direction : String
  signal_count : ℕ
deriving DecidableEq, Repr

/-- The group record built from one confluent cluster. -/
def mkConfluenceGroup (cs : List Signal) : ConfluenceGroup :=
  let n : ℚ := cs.length
  let base := (cs.map Signal.strength).sum / n
  let bullish_count := (cs.filter (fun s => s.direction == "bullish")).length
  let bearish_count := (cs.filter (fun s => s.direction == "bearish")).length
  ⟨cs, (cs.map Signal.price).sum / n, min 100 (base * 1.2),
    if bearish_count < bullish_count then "bullish" else "bearish", cs.length⟩

/-- The greedy grouping pass of `get_confluence_signals`, fuelled by the
list length exactly like `equalLevelGroups`. -/
def confluenceGroupsAux (tol : ℚ) : ℕ → List Signal → List ConfluenceGroup
  | 0, _ => []
  | _, [] => []
  | fuel + 1, s :: rest =>
    let near := rest.filter (fun t => decide (|s.price - t.price| ≤ s.price * tol))
    let far := rest.filter (fun t => !decide (|s.price - t.price| ≤ s.price * tol))
    let cs := s :: near
    if 2 ≤ cs.length
    then mkConfluenceGroup cs :: confluenceGroupsAux tol fuel far
    else confluenceGroupsAux tol fuel far

/-- Embeds `SmartMoneyAnalyzer.get_confluence_signals` (`price_tolerance`
default `0.001`); the final `confluences.sort(key=..., reverse=True)` is
the stable descending sort by combined strength. -/
def get_confluence_signals (signals : List Signal) (price_tolerance : ℚ) :
    List ConfluenceGroup :=
  (confluenceGroupsAux price_tolerance signals.length signals).insertionSort
    (fun a b => b.combined_strength ≤ a.combined_strength)

/-- The four swing highs of the liquidity-clustering test case. -/
def c7pts : List SwingPoint :=
  [⟨"high", 1.1000, 10, 1⟩, ⟨"high", 1.1001, 20, 2⟩,
   ⟨"high", 1.1050, 30, 3⟩, ⟨"high", 1.1051, 40, 4⟩]

/-- A six-candle series whose volume column is present but identically
zero; the scan emits one bullish FVG at `i = 5` whose impulse candle
(index 4) has a volume field and more than five context rows. -/
def c4df : List Candle :=
  [⟨0, 1.3000, 1.3010, 1.2990, 1.3005, some 0⟩,
   ⟨3600, 1.3000, 1.3010, 1.2990, 1.3005, some 0⟩,
   ⟨7200, 1.3000, 1.3010, 1.2990, 1.3000, some 0⟩,
   ⟨10800, 1.2005, 1.2010, 1.2000, 1.2008, some 0⟩,
   ⟨14400, 1.1500, 1.1599, 1.1500, 1.1598, some 0⟩,
   ⟨18000, 1.0990, 1.1000, 1.0980, 1.0995, some 0⟩]

/-- Six context candles with constant positive volume 2. -/
def c4wCtx : List Candle :=
  [⟨0, 1, 1, 1, 1, some 2⟩, ⟨1, 1, 1, 1, 1, some 2⟩, ⟨2, 1, 1, 1, 1, some 2⟩,
   ⟨3, 1, 1, 1, 1, some 2⟩, ⟨4, 1, 1, 1, 1, some 2⟩, ⟨5, 1, 1, 1, 1, some 2⟩]

/-- An impulse candle with volume 4. -/
def c4wImp : Candle := ⟨6, 1, 2, 1 / 2, 3 / 2, some 4⟩

/-- The bias counterexample input: one bullish signal of strength 100
and one bearish of strength 50, so the bullish share is 200/3 ≈ 66.67%. -/
def c5cex : List Signal :=
  [⟨"OB_Bullish", "bullish", 1, 0, 100⟩, ⟨"OB_Bearish", "bearish", 1, 1, 50⟩]

/-- Eight bullish and two bearish signals of strength 100: weights 8.0
against 2.0. -/
def c5w : List Signal :=
  [⟨"a", "bullish", 1, 0, 100⟩, ⟨"b", "bullish", 1, 1, 100⟩,
   ⟨"c", "bullish", 1, 2, 100⟩, ⟨"d", "bullish", 1, 3, 100⟩,
   ⟨"e", "bullish", 1, 4, 100⟩, ⟨"f", "bullish", 1, 5, 100⟩,
   ⟨"g", "bullish", 1, 6, 100⟩, ⟨"h", "bullish", 1, 7, 100⟩,
   ⟨"i", "bearish", 1, 8, 100⟩, ⟨"j", "bearish", 1, 9, 100⟩]

/-- The bullish MSS signal the loop constructs at swing index `i`. -/
def mssBullSigAt (sw : List SwingPoint) (i : ℕ) : Signal :=
  ⟨"MSS_Bullish", "bullish", (swGet sw i).price, (swGet sw i).timestamp,
    structureStrength (sliceL sw (i - 3) (i + 1)) "bullish_mss"⟩

/-- The bearish MSS signal the loop constructs at swing index `i`. -/
def mssBearSigAt (sw : List SwingPoint) (i : ℕ) : Signal :=
  ⟨"MSS_Bearish", "bearish", (swGet sw i).price, (swGet sw i).timestamp,
    structureStrength (sliceL sw (i - 3) (i + 1)) "bearish_mss"⟩

/-- A swing sequence [low, high, high, high] with rising highs: the MSS
loop fires a bullish MSS at index 3 although swing 2 (between the two
compared highs) is itself a high, not a low. -/
def c3cexSwings : List SwingPoint :=
  [⟨"low", 0.9, 0, 0⟩, ⟨"high", 1.0, 1, 1⟩,
   ⟨"high", 1.005, 2, 2⟩, ⟨"high", 1.01, 3, 3⟩]

/-- Swings [high 1.0, low 0.99, high 1.01]: a clean bullish MSS at
index 2 (break of 100 pips ≥ 2). -/
def c3wSwings : List SwingPoint :=
  [⟨"high", 1.0, 0, 5⟩, ⟨"low", 0.99, 1, 8⟩, ⟨"high", 1.01, 2, 12⟩]

/-- The bullish order-block signal built at index `i`. -/
def obBullSigAt (cfg : OBConfig) (df : List Candle) (pv : ℚ) (i : ℕ) : Signal :=
  ⟨"OB_Bullish", "bullish", (dfGet df i).low, (dfGet df i).datetime,
    obStrength (dfGet df i) (sliceL df (i + 1) (i + 1 + cfg.confirmation_candles))
      (sliceL df (i - 10) (i + 10)) "bullish"⟩

/-- The bearish order-block signal built at index `i`. -/
def obBearSigAt (cfg : OBConfig) (df : List Candle) (pv : ℚ) (i : ℕ) : Signal :=
  ⟨"OB_Bearish", "bearish", (dfGet df i).high, (dfGet df i).datetime,
    obStrength (dfGet df i) (sliceL df (i + 1) (i + 1 + cfg.confirmation_candles))
      (sliceL df (i - 10) (i + 10)) "bearish"⟩

/-- Ten candles where the bullish order-block pattern holds at index 1
(bearish candle, then an 88-pip upward break within the next two
candles) but index 1 is below the scan window, and the scanned range
holds only flat candles. -/
def c9cexDf : List Candle :=
  [⟨0, 1.2000, 1.2005, 1.1995, 1.2002, none⟩,
   ⟨1, 1.2010, 1.2012, 1.1990, 1.1995, none⟩,
   ⟨2, 1.2000, 1.2100, 1.2000, 1.2050, none⟩,
   ⟨3, 1.2, 1.2, 1.2, 1.2, none⟩,
   ⟨4, 1.2, 1.2, 1.2, 1.2, none⟩,
   ⟨5, 1.2, 1.2, 1.2, 1.2, none⟩,
   ⟨6, 1.2, 1.2, 1.2, 1.2, none⟩,
   ⟨7, 1.2, 1.2, 1.2, 1.2, none⟩,
   ⟨8, 1.2, 1.2, 1.2, 1.2, none⟩,
   ⟨9, 1.2, 1.2, 1.2, 1.2, none⟩]

/-- Ten candles with a clean bullish order block at scan index 5. -/
def c9wDf : List Candle :=
  [⟨0, 1.2, 1.2, 1.2, 1.2, none⟩,
   ⟨1, 1.2, 1.2, 1.2, 1.2, none⟩,
   ⟨2, 1.2, 1.2, 1.2, 1.2, none⟩,
   ⟨3, 1.2, 1.2, 1.2, 1.2, none⟩,
   ⟨4, 1.2, 1.2, 1.2, 1.2, none⟩,
   ⟨5, 1.2010, 1.2012, 1.1990, 1.1995, none⟩,
   ⟨6, 1.2000, 1.2100, 1.2000, 1.2050, none⟩,
   ⟨7, 1.2050, 1.2080, 1.2040, 1.2060, none⟩,
   ⟨8, 1.2, 1.2, 1.2, 1.2, none⟩,
   ⟨9, 1.2, 1.2, 1.2, 1.2, none⟩]

def c6s1 : Signal := ⟨"OB_Bullish", "bullish", 1000, 0, 50⟩

def c6s2 : Signal := ⟨"FVG_Bullish", "bullish", 1000.9, 1, 60⟩

def c6s3 : Signal := ⟨"OB_Bearish", "bearish", 1001.8, 2, 70⟩

theorem wDf3_fvgs : identify_fvgs fvgDefault wDf3 "EURUSD" = [wFvgSignal] := by
  decide

theorem clamp100_bounds (x : ℚ) : 0 ≤ clamp100 x ∧ clamp100 x ≤ 100 :=
  ⟨le_min (by norm_num) (le_max_left 0 x), min_le_left 100 (max 0 x)⟩

theorem fvgStrength_bounds (g : ℚ) (c : Candle) (ctx : List Candle) :
    0 ≤ fvgStrength g c ctx ∧ fvgStrength g c ctx ≤ 100 :=
  clamp100_bounds _

theorem obStrength_bounds (c : Candle) (future ctx : List Candle) (dir : String) :
    0 ≤ obStrength c future ctx dir ∧ obStrength c future ctx dir ≤ 100 :=
  clamp100_bounds _

theorem structureStrength_bounds (ctx : List SwingPoint) (t : String) :
    0 ≤ structureStrength ctx t ∧ structureStrength ctx t ≤ 100 := by
  unfold structureStrength
  split
  · norm_num
  · exact clamp100_bounds _

theorem liqStrength_bounds (k : ℕ) :
    0 ≤ min (100 : ℚ) ((k : ℚ) * 25) ∧ min (100 : ℚ) ((k : ℚ) * 25) ≤ 100 :=
  ⟨le_min (by norm_num) (by positivity), min_le_left _ _⟩

theorem fvg_mem_shape {cfg : FVGConfig} {df : List Candle} {pair : String}
    {s : Signal} (h : s ∈ identify_fvgs cfg df pair) :
    ∃ g c ctx, s.strength = fvgStrength g c ctx := by
  unfold identify_fvgs at h
  split at h
  · simp at h
  · have h' := (List.mem_filter.mp h).1
    obtain ⟨i, _, hstep⟩ := List.mem_filterMap.mp h'
    simp only [fvgStep] at hstep
    split_ifs at hstep <;> first
      | (injection hstep with h2; subst h2; exact ⟨_, _, _, rfl⟩)
      | simp at hstep

theorem ob_mem_shape {cfg : OBConfig} {df : List Candle} {pair : String}
    {s : Signal} (h : s ∈ identify_order_blocks cfg df pair) :
    ∃ c future ctx dir, s.strength = obStrength c future ctx dir := by
  unfold identify_order_blocks at h
  split at h
  · simp at h
  · obtain ⟨i, _, hstep⟩ := List.mem_filterMap.mp h
    simp only [obStep] at hstep
    split_ifs at hstep <;> first
      | (injection hstep with h2; subst h2; exact ⟨_, _, _, _, rfl⟩)
      | simp at hstep

theorem mss_mem_shape {mb pv : ℚ} {sw : List SwingPoint} {i : ℕ} {s : Signal}
    (h : mssStep mb pv sw i = some s) :
    ∃ ctx t, s.strength = structureStrength ctx t := by
  simp only [mssStep] at h
  split_ifs at h <;> first
    | (injection h with h2; subst h2; exact ⟨_, _, rfl⟩)
    | simp at h

theorem choch_mem_shape {mb pv : ℚ} {recent : List SwingPoint} {s : Signal}
    (h : chochOf mb pv recent = some s) : s.strength = 70 := by
  simp only [chochOf] at h
  split_ifs at h <;> first
    | (subst h; rfl)
    | (injection h with h2; subst h2; rfl)
    | simp at h

theorem liq_mem_shape {tol : ℚ} {df : List Candle} {pair : String} {s : Signal}
    (h : s ∈ identify_liquidity_zones tol df pair) :
    ∃ k : ℕ, s.strength = min 100 ((k : ℚ) * 25) := by
  unfold identify_liquidity_zones at h
  split at h
  · simp at h
  · rcases List.mem_append.mp h with h' | h' <;>
      obtain ⟨g, _, hg⟩ := List.mem_filterMap.mp h' <;>
      split_ifs at hg <;> first
        | (injection hg with h2; subst h2; exact ⟨g.length, rfl⟩)
        | simp at hg

theorem structure_shifts_mem_shape {mb pv : ℚ} {sw : List SwingPoint} {s : Signal}
    (h : s ∈ structureShiftsFromSwings mb pv sw) :
    (∃ ctx t, s.strength = structureStrength ctx t) ∨ s.strength = 70 := by
  obtain ⟨i, _, hi⟩ := List.mem_flatMap.mp h
  rcases List.mem_append.mp hi with h' | h'
  · obtain ⟨ctx, t, ht⟩ := mss_mem_shape (Option.mem_def.mp (Option.mem_toList.mp h'))
    exact Or.inl ⟨ctx, t, ht⟩
  · exact Or.inr (choch_mem_shape (Option.mem_def.mp (Option.mem_toList.mp h')))

theorem struct_mem_shape {cfg : StructConfig} {df : List Candle} {pair : String}
    {s : Signal} (h : s ∈ identify_structure_shifts cfg df pair) :
    (∃ ctx t, s.strength = structureStrength ctx t) ∨ s.strength = 70 := by
  unfold identify_structure_shifts at h
  split at h
  · simp at h
  · simp only [] at h
    split at h
    · simp at h
    · exact structure_shifts_mem_shape h

/-- Claim C2: every signal emitted by any of the four detectors
(`identify_fvgs`, `identify_order_blocks`, `identify_structure_shifts`,
`identify_liquidity_zones`), on any input series, any pair and any
configuration, has its `strength` field in the closed interval
`[0, 100]`. -/
theorem c2_strength_in_range (fcfg : FVGConfig) (ocfg : OBConfig)
    (scfg : StructConfig) (ltol : ℚ) (df : List Candle) (pair : String)
    (s : Signal)
    (h : s ∈ identify_fvgs fcfg df pair ∨
         s ∈ identify_order_blocks ocfg df pair ∨
         s ∈ identify_structure_shifts scfg df pair ∨
         s ∈ identify_liquidity_zones ltol df pair) :
    0 ≤ s.strength ∧ s.strength ≤ 100 := by
  rcases h with h | h | h | h
  · obtain ⟨g, c, ctx, hs⟩ := fvg_mem_shape h
    rw [hs]; exact fvgStrength_bounds g c ctx
  · obtain ⟨c, future, ctx, dir, hs⟩ := ob_mem_shape h
    rw [hs]; exact obStrength_bounds c future ctx dir
  · rcases struct_mem_shape h with ⟨ctx, t, hs⟩ | hs
    · rw [hs]; exact structureStrength_bounds ctx t
    · rw [hs]; norm_num
  · obtain ⟨k, hs⟩ := liq_mem_shape h
    rw [hs]; exact liqStrength_bounds k

/-- Witness for C2 at a concrete emitted FVG signal. -/
theorem c2_witness : 0 ≤ wFvgSignal.strength ∧ wFvgSignal.strength ≤ 100 :=
  c2_strength_in_range fvgDefault obDefault structDefault liqDefaultTol wDf3
    "EURUSD" wFvgSignal (Or.inl (by decide))

/-- Claim C8: on any series of at least 3 rows, every signal returned by
`identify_fvgs` is at most `max_age_hours` older than the series' final
timestamp (so any older gap is absent), and every gap found by the scan
(`fvg_raw`) that is at most `max_age_hours` old is retained in the
returned list. -/
theorem c8_age_filter (cfg : FVGConfig) (df : List Candle) (pair : String)
    (h3 : 3 ≤ df.length) :
    (∀ s ∈ identify_fvgs cfg df pair,
      ((dfGet df (df.length - 1)).datetime - s.timestamp) / 3600 ≤
        cfg.max_age_hours) ∧
    (∀ s ∈ fvg_raw cfg df (pipValue pair),
      ((dfGet df (df.length - 1)).datetime - s.timestamp) / 3600 ≤
        cfg.max_age_hours → s ∈ identify_fvgs cfg df pair) := by
  have hne : ¬ df.length < 3 := not_lt.mpr h3
  constructor
  · intro s hs
    unfold identify_fvgs at hs
    rw [if_neg hne] at hs
    exact of_decide_eq_true (List.mem_filter.mp hs).2
  · intro s hs hage
    unfold identify_fvgs
    rw [if_neg hne]
    exact List.mem_filter.mpr ⟨hs, decide_eq_true hage⟩

/-- Witness for C8: the gap signal on `wDf3` is fresh (age 0 hours) and
is retained. -/
theorem c8_witness : wFvgSignal ∈ identify_fvgs fvgDefault wDf3 "EURUSD" :=
  (c8_age_filter fvgDefault wDf3 "EURUSD" (by decide)).2 wFvgSignal (by decide)
    (by decide)

/-- Claim C10: any series shorter than 20 rows makes
`identify_liquidity_zones` return the empty list immediately (the
length guard fires before swing-point detection). -/
theorem c10_liquidity_min_length (tol : ℚ) (df : List Candle) (pair : String)
    (h : df.length < 20) : identify_liquidity_zones tol df pair = [] := by
  unfold identify_liquidity_zones
  rw [if_pos h]

/-- Witness for C10 at the empty series. -/
theorem c10_witness : identify_liquidity_zones liqDefaultTol [] "EURUSD" = [] :=
  c10_liquidity_min_length liqDefaultTol [] "EURUSD" (by decide)

/-- Claim C7: the greedy single-pass clustering of `_find_equal_levels`
at relative tolerance 0.0002 groups the four swing highs
`[1.1000, 1.1001, 1.1050, 1.1051]` into exactly two groups of two (the
first anchor 1.1000 captures 1.1001 only, the next unused anchor 1.1050
captures 1.1051), not one group of four. -/
theorem c7_equal_levels_example :
    find_equal_levels 0.0002 c7pts "high" =
      [[⟨"high", 1.1000, 10, 1⟩, ⟨"high", 1.1001, 20, 2⟩],
       [⟨"high", 1.1050, 30, 3⟩, ⟨"high", 1.1051, 40, 4⟩]] := by decide

/-- Counterexample to C1 as stated: when the FVG detector run raises,
the order-block run's successful, non-empty result is *not* contributed
to the output — all four detector calls share a single `try` block, so
the first failure skips every later assignment. -/
theorem c1_counterexample :
    (analyzeRun (Except.error "boom") (Except.ok [wFvgSignal])
        (Except.ok [wFvgSignal]) (Except.ok [wFvgSignal])).order_blocks = [] ∧
    [wFvgSignal] ≠ ([] : List Signal) :=
  ⟨rfl, by decide⟩

/-- Claim C1 (amended): a detector exception is caught (the aggregator
always returns a result dict, never propagates), the categories
assigned before the failing detector keep their signals, and the
failing detector's category together with every later category and the
combined list come back empty; with the pure embedded detectors every
run is `.ok`, so `analyze` itself always takes the all-success path. -/
theorem c1_analyze_first_failure (e : String) (f o m l : List Signal)
    (rb rc rd : Except String (List Signal)) (df : List Candle) (pair : String) :
    analyzeRun (Except.error e) rb rc rd = emptyResults ∧
    analyzeRun (.ok f) (Except.error e) rc rd = ⟨f, [], [], [], []⟩ ∧
    analyzeRun (.ok f) (.ok o) (Except.error e) rd = ⟨f, o, [], [], []⟩ ∧
    analyzeRun (.ok f) (.ok o) (.ok m) (Except.error e) = ⟨f, o, m, [], []⟩ ∧
    analyzeRun (.ok f) (.ok o) (.ok m) (.ok l) =
      ⟨f, o, m, l, sortSignalsTsDesc (f ++ o ++ m ++ l)⟩ ∧
    analyze df pair =
      analyzeRun (.ok (identify_fvgs fvgDefault df pair))
        (.ok (identify_order_blocks obDefault df pair))
        (.ok (identify_structure_shifts structDefault df pair))
        (.ok (identify_liquidity_zones liqDefaultTol df pair)) :=
  ⟨rfl, rfl, rfl, rfl, rfl, rfl⟩

/-- Counterexample to C4 as stated: on `c4df` the emitted FVG's
relative-volume sub-score is 0, not the claimed fallback 15, even
though the impulse candle has a volume field, more than five context
candles are available, and the guarded zero mean raises no exception:
the `else: strength += 15` of the source belongs to the outer `if`, so
the zero-mean branch adds nothing.  The emitted strength is
`25 + 2450/99 + 0 + 12.5 = 12325/198` where the claim predicts
`... + 15 = 15295/198`. -/
theorem c4_counterexample :
    identify_fvgs fvgDefault c4df "EURUSD" =
      [⟨"FVG_Bullish", "bullish", 1.15, 18000, 12325 / 198⟩] ∧
    (dfGet c4df 4).volume.isSome = true ∧
    5 < (sliceL c4df 0 6).length ∧
    volMean (sliceL c4df 0 6) = 0 ∧
    relVolumeFactor (dfGet c4df 4) (sliceL c4df 0 6) = 0 ∧
    (12325 / 198 : ℚ) ≠ 12325 / 198 + 15 := by decide

/-- Claim C4 (amended): for every emitted FVG signal the strength is the
clamped sum of the four sub-scores, and the relative-volume sub-score
equals `min(25, impulse_volume / mean_context_volume * 10)` when the
impulse has a volume field, the context window (up to the last 11
candles) has more than 5 rows and its mean volume is positive; it is the
flat 15 only when the volume is missing or the context is short; and a
non-positive mean volume is guarded (no exception) but contributes 0,
not 15. -/
theorem c4_volume_subscore (c : Candle) (ctx : List Candle) :
    (c.volume.isSome = true → 5 < ctx.length → 0 < volMean ctx →
      relVolumeFactor c ctx = min 25 (c.volume.getD 0 / volMean ctx * 10)) ∧
    (c.volume.isSome = true → 5 < ctx.length → ¬ 0 < volMean ctx →
      relVolumeFactor c ctx = 0) ∧
    (¬ (c.volume.isSome = true ∧ 5 < ctx.length) →
      relVolumeFactor c ctx = 15) ∧
    (∀ (cfg : FVGConfig) (df : List Candle) (pair : String) (s : Signal),
      s ∈ identify_fvgs cfg df pair →
      ∃ g imp cctx, s.strength =
        clamp100 (min 25 (g * 2) + fvgBodyFactor imp +
          relVolumeFactor imp cctx + fvgTrendFactor cctx)) := by
  refine ⟨?_, ?_, ?_, ?_⟩
  · intro hv hl hm
    unfold relVolumeFactor
    rw [if_pos (by simp [hv, hl]), if_pos hm]
  · intro hv hl hm
    unfold relVolumeFactor
    rw [if_pos (by simp [hv, hl]), if_neg hm]
  · intro hnot
    unfold relVolumeFactor
    rw [if_neg]
    simp only [Bool.and_eq_true, decide_eq_true_eq]
    exact fun hc => hnot hc
  · intro cfg df pair s hs
    obtain ⟨g, imp, cctx, h⟩ := fvg_mem_shape hs
    exact ⟨g, imp, cctx, h⟩

/-- Witness for C4 on the positive-mean branch. -/
theorem c4_witness :
    relVolumeFactor c4wImp c4wCtx =
      min 25 (c4wImp.volume.getD 0 / volMean c4wCtx * 10) :=
  (c4_volume_subscore c4wImp c4wCtx).1 (by decide) (by decide) (by decide)

theorem biasStep_bull (acc : ℚ × ℚ) (s : Signal)
    (h : (s.direction == "bullish") = true) :
    biasStep acc s = (acc.1 + s.strength / 100, acc.2) := by
  unfold biasStep
  rw [if_pos h]

theorem biasStep_bear (acc : ℚ × ℚ) (s : Signal)
    (h1 : (s.direction == "bullish") = false)
    (h2 : (s.direction == "bearish") = true) :
    biasStep acc s = (acc.1, acc.2 + s.strength / 100) := by
  unfold biasStep
  rw [if_neg (by simp [h1]), if_pos h2]

theorem biasStep_other (acc : ℚ × ℚ) (s : Signal)
    (h1 : (s.direction == "bullish") = false)
    (h2 : (s.direction == "bearish") = false) :
    biasStep acc s = acc := by
  unfold biasStep
  rw [if_neg (by simp [h1]), if_neg (by simp [h2])]

theorem bullishWeight_cons (s : Signal) (t : List Signal) :
    bullishWeight (s :: t) =
      (if s.direction == "bullish" then s.strength / 100 else 0) +
        bullishWeight t := by
  by_cases h : (s.direction == "bullish") = true <;>
    simp [bullishWeight, List.filter_cons, h]

theorem bearishWeight_cons (s : Signal) (t : List Signal) :
    bearishWeight (s :: t) =
      (if s.direction == "bearish" then s.strength / 100 else 0) +
        bearishWeight t := by
  by_cases h : (s.direction == "bearish") = true <;>
    simp [bearishWeight, List.filter_cons, h]

theorem foldl_biasStep (l : List Signal) :
    ∀ a b : ℚ, l.foldl biasStep (a, b) = (a + bullishWeight l, b + bearishWeight l) := by
  induction l with
  | nil => intro a b; simp [bullishWeight, bearishWeight]
  | cons s t ih =>
    intro a b
    rw [List.foldl_cons, bullishWeight_cons, bearishWeight_cons]
    by_cases h1 : (s.direction == "bullish") = true
    · have h2 : (s.direction == "bearish") = false := by
        simp only [beq_iff_eq] at h1 ⊢
        rw [h1]
        decide
      rw [biasStep_bull _ _ h1]
      dsimp only
      rw [ih, h1, h2]
      simp only [Bool.false_eq_true, eq_self_iff_true, if_true, if_false,
        ite_true, ite_false, Prod.mk.injEq]
      constructor <;> ring
    · have h1' : (s.direction == "bullish") = false := by
        simpa using h1
      by_cases h2 : (s.direction == "bearish") = true
      · rw [biasStep_bear _ _ h1' h2]
        dsimp only
        rw [ih, h1', h2]
        simp only [Bool.false_eq_true, eq_self_iff_true, if_true, if_false,
          ite_true, ite_false, Prod.mk.injEq]
        constructor <;> ring
      · have h2' : (s.direction == "bearish") = false := by
          simpa using h2
        rw [biasStep_other _ _ h1' h2', ih, h1', h2']
        simp only [Bool.false_eq_true, eq_self_iff_true, if_true, if_false,
          ite_true, ite_false, Prod.mk.injEq]
        constructor <;> ring

theorem scoreFold_eq (signals : List Signal) :
    scoreFold signals = (bullishWeight signals, bearishWeight signals) := by
  have h := foldl_biasStep signals 0 0
  simpa [scoreFold] using h

/-- Claim C5 (amended): each signal contributes `strength / 100` to its
direction's total; zero total weight gives NEUTRAL with confidence 0;
otherwise a bullish share above 60% gives BULLISH, a bearish share above
60% gives BEARISH, and anything else NEUTRAL at 50 — with the returned
confidence being the share *rounded to one decimal place* (Python's
`round(x, 1)`), not the exact share. -/
theorem c5_bias_characterization (signals : List Signal) :
    (bullishWeight signals + bearishWeight signals = 0 →
      get_market_bias signals = ⟨"NEUTRAL", 0⟩) ∧
    (bullishWeight signals + bearishWeight signals ≠ 0 →
      60 < bullishWeight signals /
        (bullishWeight signals + bearishWeight signals) * 100 →
      get_market_bias signals =
        ⟨"BULLISH", pyRound1 (bullishWeight signals /
          (bullishWeight signals + bearishWeight signals) * 100)⟩) ∧
    (bullishWeight signals + bearishWeight signals ≠ 0 →
      ¬ 60 < bullishWeight signals /
        (bullishWeight signals + bearishWeight signals) * 100 →
      60 < bearishWeight signals /
        (bullishWeight signals + bearishWeight signals) * 100 →
      get_market_bias signals =
        ⟨"BEARISH", pyRound1 (bearishWeight signals /
          (bullishWeight signals + bearishWeight signals) * 100)⟩) ∧
    (bullishWeight signals + bearishWeight signals ≠ 0 →
      ¬ 60 < bullishWeight signals /
        (bullishWeight signals + bearishWeight signals) * 100 →
      ¬ 60 < bearishWeight signals /
        (bullishWeight signals + bearishWeight signals) * 100 →
      get_market_bias signals = ⟨"NEUTRAL", 50⟩) := by
  unfold get_market_bias
  rw [scoreFold_eq]
  by_cases hemp : signals.isEmpty
  · have h0 : bullishWeight signals = 0 ∧ bearishWeight signals = 0 := by
      rcases signals with _ | _
      · exact ⟨rfl, rfl⟩
      · simp [List.isEmpty] at hemp
    rw [if_pos hemp]
    refine ⟨fun _ => rfl, fun ht _ => absurd ?_ ht, fun ht _ _ => absurd ?_ ht,
      fun ht _ _ => absurd ?_ ht⟩ <;> rw [h0.1, h0.2] <;> norm_num
  · rw [if_neg hemp]
    dsimp only
    refine ⟨fun h0 => ?_, fun ht hb => ?_, fun ht hb hr => ?_, fun ht hb hr => ?_⟩
    · rw [if_pos h0]
    · rw [if_neg ht, if_pos hb]
    · rw [if_neg ht, if_neg hb, if_pos hr]
    · rw [if_neg ht, if_neg hb, if_neg hr]
      have : pyRound1 50 = 50 := by decide
      rw [this]

/-- Counterexample to C5 as stated: the bias is BULLISH but the
returned confidence is `round(200/3, 1) = 66.7`, not the exact bullish
percentage `200/3`. -/
theorem c5_counterexample :
    (get_market_bias c5cex).bias = "BULLISH" ∧
    60 < bullishWeight c5cex / (bullishWeight c5cex + bearishWeight c5cex) * 100 ∧
    (get_market_bias c5cex).confidence ≠
      bullishWeight c5cex / (bullishWeight c5cex + bearishWeight c5cex) * 100 := by
  decide

/-- Witness for C5: bullish weight 8.0 against bearish weight 2.0 gives
BULLISH with confidence 80.0. -/
theorem c5_witness : get_market_bias c5w = ⟨"BULLISH", 80⟩ := by
  have h := (c5_bias_characterization c5w).2.1 (by decide) (by decide)
  rw [h]
  decide

/-- Claim C3 (amended): at swing index `i` the loop emits a bullish MSS
exactly when swings `i` and `i-2` are both highs and swing `i`'s price
exceeds swing `i-2`'s by at least `min_break_pips` in pip units —
with *no* condition on swing `i-1`'s type; symmetrically for bearish
MSS on lows; and any signal `mssStep` produces at an in-range index is
in the output of the scan over the swing sequence. -/
theorem c3_mss_characterization (mb pv : ℚ) (sw : List SwingPoint) (i : ℕ)
    (s : Signal) (hi2 : 2 ≤ i) (hilen : i < sw.length) :
    (mssStep mb pv sw i = some (mssBullSigAt sw i) ↔
      (swGet sw i).type = "high" ∧ (swGet sw (i - 2)).type = "high" ∧
      (swGet sw (i - 2)).price < (swGet sw i).price ∧
      mb ≤ ((swGet sw i).price - (swGet sw (i - 2)).price) / pv) ∧
    (mssStep mb pv sw i = some (mssBearSigAt sw i) ↔
      (swGet sw i).type = "low" ∧ (swGet sw (i - 2)).type = "low" ∧
      (swGet sw i).price < (swGet sw (i - 2)).price ∧
      mb ≤ ((swGet sw (i - 2)).price - (swGet sw i).price) / pv) ∧
    (mssStep mb pv sw i = some s → s ∈ structureShiftsFromSwings mb pv sw) := by
  refine ⟨?_, ?_, ?_⟩
  · constructor
    · intro h
      simp only [mssStep] at h
      split_ifs at h with hc hb hc2 hb2 <;> first
        | (simp only [Bool.and_eq_true, beq_iff_eq, decide_eq_true_eq] at hc
           exact ⟨hc.1.1, hc.1.2, hc.2, hb⟩)
        | simp [mssBullSigAt] at h
    · rintro ⟨h1, h2, h3, h4⟩
      simp only [mssStep]
      rw [if_pos (by simp [h1, h2, h3]), if_pos h4]
      rfl
  · constructor
    · intro h
      simp only [mssStep] at h
      split_ifs at h with hc hb hc2 hb2 <;> first
        | (simp only [Bool.and_eq_true, beq_iff_eq, decide_eq_true_eq] at hc2
           exact ⟨hc2.1.1, hc2.1.2, hc2.2, hb2⟩)
        | simp [mssBearSigAt] at h
    · rintro ⟨h1, h2, h3, h4⟩
      simp only [mssStep]
      have hc : ¬ ((swGet sw i).type == "high" &&
          ((swGet sw (i - 2)).type == "high") &&
          decide ((swGet sw (i - 2)).price < (swGet sw i).price)) = true := by
        simp only [Bool.and_eq_true, beq_iff_eq, decide_eq_true_eq]
        rintro ⟨⟨ha, -⟩, -⟩
        rw [h1] at ha
        exact absurd ha (by decide)
      rw [if_neg hc, if_pos (by simp [h1, h2, h3]), if_pos h4]
      rfl
  · intro h
    refine List.mem_flatMap.mpr ⟨i, List.mem_range'.mpr ⟨i - 2, by omega, by omega⟩, ?_⟩
    exact List.mem_append_left _ (Option.mem_toList.mpr (Option.mem_def.mpr h))

/-- Counterexample to C3 as stated: the code never inspects swing
`i-1`'s type, so a bullish MSS is emitted at `i = 3` even though swing
2 is a high (the claim requires the middle swing to be a low). -/
theorem c3_counterexample :
    (swGet c3cexSwings 2).type = "high" ∧
    mssStep 2 (1 / 10000) c3cexSwings 3 = some (mssBullSigAt c3cexSwings 3) ∧
    mssBullSigAt c3cexSwings 3 ∈
      structureShiftsFromSwings 2 (1 / 10000) c3cexSwings := by decide

/-- Witness for C3 at a concrete swing sequence. -/
theorem c3_witness :
    mssStep 2 (1 / 10000) c3wSwings 2 = some (mssBullSigAt c3wSwings 2) ∧
    mssBullSigAt c3wSwings 2 ∈ structureShiftsFromSwings 2 (1 / 10000) c3wSwings := by
  have h := c3_mss_characterization 2 (1 / 10000) c3wSwings 2
    (mssBullSigAt c3wSwings 2) (by decide) (by decide)
  have hstep := h.1.mpr (by refine ⟨rfl, rfl, by decide, by decide⟩)
  exact ⟨hstep, h.2.2 hstep⟩

theorem isPotentialBullishOB_iff (cfg : OBConfig) (c : Candle)
    (future : List Candle) (pv : ℚ) :
    isPotentialBullishOB cfg c future pv = true ↔
      c.close < c.open_ ∧ future.length ≠ 0 ∧
      cfg.min_size_pips ≤ (maxHigh future - c.high) / pv := by
  unfold isPotentialBullishOB
  split_ifs with h
  · simp [h]
  · simp only [Bool.and_eq_true, decide_eq_true_eq]
    exact ⟨fun ⟨a, b⟩ => ⟨a, h, b⟩, fun ⟨a, _, b⟩ => ⟨a, b⟩⟩

theorem isPotentialBearishOB_iff (cfg : OBConfig) (c : Candle)
    (future : List Candle) (pv : ℚ) :
    isPotentialBearishOB cfg c future pv = true ↔
      c.open_ < c.close ∧ future.length ≠ 0 ∧
      cfg.min_size_pips ≤ (c.low - minLow future) / pv := by
  unfold isPotentialBearishOB
  split_ifs with h
  · simp [h]
  · simp only [Bool.and_eq_true, decide_eq_true_eq]
    exact ⟨fun ⟨a, b⟩ => ⟨a, h, b⟩, fun ⟨a, _, b⟩ => ⟨a, b⟩⟩

/-- Claim C9 (amended): for a series of at least 10 candles and a scan
index `i` with `window = 5 ≤ i < n − confirmation_candles`, a bullish
order block is emitted at `i` exactly when candle `i` is bearish
(`close < open`) and the maximum high of the following
`confirmation_candles` candles exceeds candle `i`'s high by at least
`min_size_pips` in pip units, the emitted price being candle `i`'s low;
symmetrically for bearish order blocks with price the candle's high;
and everything `obStep` emits at an in-range index is in the output of
`identify_order_blocks`.  (Outside the scan range, or on series shorter
than 10 rows, nothing is emitted even when the pattern holds.) -/
theorem c9_ob_characterization (cfg : OBConfig) (df : List Candle)
    (pair : String) (i : ℕ) (s : Signal) (hlen : 10 ≤ df.length) (hi5 : 5 ≤ i)
    (hir : i + cfg.confirmation_candles < df.length) :
    (obStep cfg df (pipValue pair) i = some (obBullSigAt cfg df (pipValue pair) i) ↔
      (dfGet df i).close < (dfGet df i).open_ ∧
      (sliceL df (i + 1) (i + 1 + cfg.confirmation_candles)).length ≠ 0 ∧
      cfg.min_size_pips ≤
        (maxHigh (sliceL df (i + 1) (i + 1 + cfg.confirmation_candles)) -
          (dfGet df i).high) / pipValue pair) ∧
    (obStep cfg df (pipValue pair) i = some (obBearSigAt cfg df (pipValue pair) i) ↔
      (dfGet df i).open_ < (dfGet df i).close ∧
      (sliceL df (i + 1) (i + 1 + cfg.confirmation_candles)).length ≠ 0 ∧
      cfg.min_size_pips ≤
        ((dfGet df i).low -
          minLow (sliceL df (i + 1) (i + 1 + cfg.confirmation_candles))) /
          pipValue pair) ∧
    (obStep cfg df (pipValue pair) i = some s →
      s ∈ identify_order_blocks cfg df pair) := by
  refine ⟨?_, ?_, ?_⟩
  · constructor
    · intro h
      simp only [obStep] at h
      split_ifs at h with hc hc2 <;> first
        | exact (isPotentialBullishOB_iff cfg _ _ _).mp hc
        | simp [obBullSigAt] at h
    · intro hcond
      simp only [obStep]
      rw [if_pos ((isPotentialBullishOB_iff cfg _ _ _).mpr hcond)]
      rfl
  · constructor
    · intro h
      simp only [obStep] at h
      split_ifs at h with hc hc2 <;> first
        | exact (isPotentialBearishOB_iff cfg _ _ _).mp hc2
        | simp [obBearSigAt] at h
    · intro hcond
      simp only [obStep]
      have hnb : ¬ isPotentialBullishOB cfg (dfGet df i)
          (sliceL df (i + 1) (i + 1 + cfg.confirmation_candles))
          (pipValue pair) = true := by
        rw [isPotentialBullishOB_iff]
        rintro ⟨hlt, -, -⟩
        exact absurd hcond.1 (not_lt.mpr hlt.le)
      rw [if_neg hnb, if_pos ((isPotentialBearishOB_iff cfg _ _ _).mpr hcond)]
      rfl
  · intro h
    unfold identify_order_blocks
    rw [if_neg (not_lt.mpr hlen)]
    exact List.mem_filterMap.mpr
      ⟨i, List.mem_range'.mpr ⟨i - 5, by omega, by omega⟩, h⟩

/-- Counterexample to C9 as stated: the order-block pattern (bearish
candle, confirmation break of 88 ≥ 5 pips) holds at index 1 of
`c9cexDf`, yet `identify_order_blocks` returns no signal at all — the
scan only covers `range(5, n - confirmation_candles)`, so "exactly
when" fails without the index-range qualification. -/
theorem c9_counterexample :
    ((dfGet c9cexDf 1).close < (dfGet c9cexDf 1).open_ ∧
     (sliceL c9cexDf 2 4).length ≠ 0 ∧
     (5 : ℚ) ≤ (maxHigh (sliceL c9cexDf 2 4) - (dfGet c9cexDf 1).high) /
       pipValue "EURUSD") ∧
    identify_order_blocks obDefault c9cexDf "EURUSD" = [] := by decide

/-- Witness for C9 at scan index 5 of `c9wDf`. -/
theorem c9_witness :
    obStep obDefault c9wDf (pipValue "EURUSD") 5 =
      some (obBullSigAt obDefault c9wDf (pipValue "EURUSD") 5) ∧
    obBullSigAt obDefault c9wDf (pipValue "EURUSD") 5 ∈
      identify_order_blocks obDefault c9wDf "EURUSD" := by
  have h := c9_ob_characterization obDefault c9wDf "EURUSD" 5
    (obBullSigAt obDefault c9wDf (pipValue "EURUSD") 5)
    (by decide) (by decide) (by decide)
  have hstep := h.1.mpr ⟨by decide, by decide, by decide⟩
  exact ⟨hstep, h.2.2 hstep⟩

theorem confluence_groups_shape (tol : ℚ) :
    ∀ (fuel : ℕ) (l : List Signal) (g : ConfluenceGroup),
      g ∈ confluenceGroupsAux tol fuel l →
      ∃ s near, g = mkConfluenceGroup (s :: near) ∧
        2 ≤ (s :: near).length ∧
        ∀ t ∈ near, |s.price - t.price| ≤ s.price * tol := by
  intro fuel
  induction fuel with
  | zero => intro l g h; simp [confluenceGroupsAux] at h
  | succ n ih =>
    intro l g h
    cases l with
    | nil => simp [confluenceGroupsAux] at h
    | cons s rest =>
      simp only [confluenceGroupsAux] at h
      split_ifs at h with hc
      · rcases List.mem_cons.mp h with hg | hg
        · refine ⟨s, _, hg, hc, ?_⟩
          intro t ht
          exact of_decide_eq_true (List.mem_filter.mp ht).2
        · exact ih _ _ hg
      · exact ih _ _ h

/-- Claim C6 (amended): confluence grouping is the greedy single pass in
which each still-unused signal joins the group of the first anchor whose
price it matches within `price_tolerance` times the *anchor's* price
(two mutually close signals may still end up apart when an earlier
anchor absorbs one of them); every returned group has at least two
members, `combined_strength = min(100, mean_strength * 1.2)`, dominant
direction by majority vote with ties to bearish, and the group list is
sorted by combined strength descending. -/
theorem c6_confluence_properties (signals : List Signal) (tol : ℚ) :
    (∀ g ∈ get_confluence_signals signals tol,
      2 ≤ g.signals.length ∧
      g.signal_count = g.signals.length ∧
      g.combined_strength =
        min 100 ((g.signals.map Signal.strength).sum /
          (g.signals.length : ℚ) * 1.2) ∧
      g.dominant_direction =
        (if (g.signals.filter (fun s => s.direction == "bearish")).length <
            (g.signals.filter (fun s => s.direction == "bullish")).length
          then "bullish" else "bearish") ∧
      (∀ t ∈ g.signals, t = g.signals.headD dSignal ∨
        |(g.signals.headD dSignal).price - t.price| ≤
          (g.signals.headD dSignal).price * tol)) ∧
    List.Sorted
      (fun a b : ConfluenceGroup => b.combined_strength ≤ a.combined_strength)
      (get_confluence_signals signals tol) := by
  constructor
  · intro g hg
    have hg' : g ∈ confluenceGroupsAux tol signals.length signals :=
      (List.mem_insertionSort _).mp hg
    obtain ⟨s, near, rfl, hlen2, hnear⟩ :=
      confluence_groups_shape tol _ _ _ hg'
    refine ⟨hlen2, rfl, rfl, rfl, ?_⟩
    intro t ht
    rcases List.mem_cons.mp ht with rfl | ht'
    · exact Or.inl rfl
    · exact Or.inr (hnear t ht')
  · haveI : IsTotal ConfluenceGroup
        (fun a b => b.combined_strength ≤ a.combined_strength) :=
      ⟨fun a b => le_total b.combined_strength a.combined_strength⟩
    haveI : IsTrans ConfluenceGroup
        (fun a b => b.combined_strength ≤ a.combined_strength) :=
      ⟨fun _ _ _ h1 h2 => le_trans h2 h1⟩
    exact List.sorted_insertionSort _ _

/-- Counterexample to C6 as stated: `c6s2` and `c6s3` differ by 0.9,
less than `price_tolerance` times either one's price (≈ 1.0009), yet
the greedy pass puts `c6s2` into the earlier anchor `c6s1`'s group and
leaves `c6s3` in no group at all — so "any two signals within tolerance
share a group" fails. -/
theorem c6_counterexample :
    |c6s2.price - c6s3.price| < c6s2.price * 0.001 ∧
    get_confluence_signals [c6s1, c6s2, c6s3] 0.001 =
      [mkConfluenceGroup [c6s1, c6s2]] ∧
    c6s3 ∉ (mkConfluenceGroup [c6s1, c6s2]).signals := by decide

/-- Witness for C6 on the group the greedy pass builds from
`[c6s1, c6s2, c6s3]`. -/
theorem c6_witness :
    2 ≤ (mkConfluenceGroup [c6s1, c6s2]).signals.length ∧
    (mkConfluenceGroup [c6s1, c6s2]).combined_strength =
      min 100 (((mkConfluenceGroup [c6s1, c6s2]).signals.map Signal.strength).sum /
        (((mkConfluenceGroup [c6s1, c6s2]).signals.length : ℕ) : ℚ) * 1.2) := by
  have h := (c6_confluence_properties [c6s1, c6s2, c6s3] 0.001).1
    (mkConfluenceGroup [c6s1, c6s2]) (by decide)
  exact ⟨h.1, h.2.2.1⟩
